import Mathlib

/-!
Verification of the offline-first sync and caching engine of the
defectslog repository (`src/services/OfflineSync.js`, `public/service-worker.js`,
and the related variants shipped in the repository).

The JavaScript is shallowly embedded: IndexedDB object stores become
association lists keyed the way the corresponding store is keyed
(`keyPath`), asynchronous effects become explicit state passing, the
remote backend (supabase upsert) becomes an oracle `Defect2 → Bool`
deciding whether an upsert succeeds, and a fallible operation returns
`Except JsError`.  Timestamps (`Date.now()` / ISO strings, which compare
chronologically) are embedded as `Nat`.
-/

set_option autoImplicit false

namespace DefectsLog

/-- Errors a JavaScript call can throw in the embedded fragment:
a local-persistence failure, a failed server call, or the TypeError
raised by invoking a method that does not exist. -/
inductive JsError where
  | storage
  | server
  | typeError
deriving DecidableEq

/-! ### Generic keyed-store primitives (IndexedDB semantics)

`put` replaces the record with the same key or inserts a new one,
`get`/`getAll` read, `delete` removes the record with a key.  Keys are
unique in an object store, so replacing the first match is exact. -/

/-- IndexedDB `store.put`: replace the entry with the same key, else append. -/
def putKeyed {α κ : Type} [DecidableEq κ] (key : α → κ) (v : α) : List α → List α
  | [] => [v]
  | x :: xs => if key x = key v then v :: xs else x :: putKeyed key v xs

/-- IndexedDB `store.get k`: first entry whose key equals `k`. -/
def findKeyed {α κ : Type} [DecidableEq κ] (key : α → κ) (k : κ) : List α → Option α
  | [] => none
  | x :: xs => if key x = k then some x else findKeyed key k xs

/-- IndexedDB `store.delete k`: remove entries whose key equals `k`. -/
def deleteKeyed {α κ : Type} [DecidableEq κ] (key : α → κ) (k : κ) : List α → List α
  | [] => []
  | x :: xs => if key x = k then deleteKeyed key k xs else x :: deleteKeyed key k xs

/-! ### Data model

`OfflineSync.js` holds two full class definitions (variant 1 and
variant 2); a third variant lives in `src/unnamed/part_002`.  Variant 1
keys defects by `localId` and has no sync queue; variant 2 and the
part_002 variant key defects by `id` and keep a `syncQueue` store keyed
by `timestamp`.  The open payload of domain fields is collapsed into a
single `payload : Nat`. -/

/-- A defect record of variant 1 (`keyPath: 'localId'`).  `syncStatus`
models the `_syncStatus` field, `none` when the field is absent. -/
structure Defect1 where
  localId : String
  payload : Nat
  lastModified : Nat
  syncStatus : Option String
deriving DecidableEq

/-- The durable state of variant 1: the single `defects` store. -/
structure Store1 where
  defects : List Defect1
deriving DecidableEq

/-- A defect record of variant 2 / part_002 (`keyPath: 'id'`). -/
structure Defect2 where
  id : String
  payload : Nat
  lastModified : Nat
  syncStatus : Option String
deriving DecidableEq

/-- A sync-queue entry: `{ type: 'upsert', data, timestamp }`, stored in
the `syncQueue` object store with `keyPath: 'timestamp'`. -/
structure QItem where
  qtype : String
  data : Defect2
  timestamp : Nat
deriving DecidableEq

/-- The durable state of variant 2 / part_002 (the `vessels` /
`settings` stores play no part in the claims). -/
structure Store2 where
  defects : List Defect2
  syncQueue : List QItem
deriving DecidableEq

/-- The `{ succeededCount, failedCount }` shape the spec says `syncNow`
returns. -/
structure SyncResult where
  succeededCount : Nat
  failedCount : Nat
deriving DecidableEq

/-- Variant 1 `generateLocalId`: ``local_${Date.now()}_${random}``. -/
def generateLocalId (now : Nat) : String := "local_" ++ toString now

/-- Variant 2 id default: ``local-${Date.now()}-${Math.random()}``. -/
def generateLocalId2 (now : Nat) : String := "local-" ++ toString now

/-! ### Variant 1 (`OfflineSync.js`, first class) -/

/-- `storeDefects` of variant 1.  The body catches its own storage
errors (`sfail`) and resolves with the *original* argument either way,
so this function is total.  On success the stored record gets a
defaulted `localId` and a fresh `lastModified`. -/
def storeDefects1 (sfail : Bool) (now : Nat) (d : Defect1) (st : Store1) :
    Store1 × List Defect1 :=
  if sfail then (st, [d])
  else
    let dw : Defect1 :=
      { d with
        localId := if d.localId = "" then generateLocalId now else d.localId,
        lastModified := now }
    ({ defects := putKeyed (fun x => x.localId) dw st.defects }, [d])

/-- Variant 1 `getPendingSyncCount`: defects whose `_syncStatus` is
`'pending'`. -/
def getPendingSyncCount1 (st : Store1) : Nat :=
  (st.defects.filter (fun d => d.syncStatus == some "pending")).length

/-- The drain loop of variant 1 `syncWithServer`: for each pending
defect, upsert to the server and on success store it back as
`'synced'`; a failing upsert is caught and the loop continues.  The
second component traces every attempted remote upsert, in order. -/
def drain1 (srv : Defect1 → Bool) (now : Nat) :
    List Defect1 → Store1 → Store1 × List Defect1
  | [], st => (st, [])
  | d :: rest, st =>
    let st1 :=
      if srv d then (storeDefects1 false now { d with syncStatus := some "synced" } st).1
      else st
    let r := drain1 srv now rest st1
    (r.1, d :: r.2)

/-- Variant 1 `syncWithServer`: returns unchanged immediately when
offline, else drains the snapshot of pending defects. -/
def syncWithServer1 (online : Bool) (srv : Defect1 → Bool) (now : Nat)
    (st : Store1) : Store1 × List Defect1 :=
  if !online then (st, [])
  else drain1 srv now (st.defects.filter (fun d => d.syncStatus == some "pending")) st

/-! ### Variant 2 (`OfflineSync.js`, second class) -/

/-- `storeData.processData` for the `defects` store of variant 2:
default the `id` and refresh `lastModified`. -/
def processDefect2 (now : Nat) (d : Defect2) : Defect2 :=
  { d with
    id := if d.id = "" then generateLocalId2 now else d.id,
    lastModified := now }

/-- Variant 2 `storeData` on the `defects` store; unlike variant 1 it
rethrows storage errors (`throw error` in its catch). -/
def storeDataDefects (sfail : Bool) (now : Nat) (d : Defect2) (st : Store2) :
    Except JsError Store2 :=
  if sfail then .error .storage
  else .ok { st with defects := putKeyed (fun x => x.id) (processDefect2 now d) st.defects }

/-- Variant 2 `storeData` on the `syncQueue` store (keyed by
`timestamp`; the save path always supplies the timestamp, so the
`|| new Date().toISOString()` default of `processData` is not taken). -/
def storeDataQueue (sfail : Bool) (q : QItem) (st : Store2) :
    Except JsError Store2 :=
  if sfail then .error .storage
  else .ok { st with syncQueue := putKeyed (fun x => x.timestamp) q st.syncQueue }

/-- Variant 2 `saveDefect`.  Offline it stores the pending-tagged
record and a `{ type: 'upsert', data, timestamp }` queue entry; online
it upserts `defectWithMeta` and stores the server response.  Its catch
block rethrows (`throw error`), so storage failures propagate. -/
def saveDefect2 (now : Nat) (online sfail serverError : Bool)
    (serverResp d : Defect2) (st : Store2) : Except JsError (Store2 × Defect2) :=
  let dm : Defect2 :=
    { d with
      id := if d.id = "" then generateLocalId2 now else d.id,
      lastModified := now,
      syncStatus := some (if online then "synced" else "pending") }
  if online then
    if serverError then .error .server
    else
      match storeDataDefects sfail now serverResp st with
      | .error e => .error e
      | .ok st1 => .ok (st1, serverResp)
  else
    match storeDataDefects sfail now dm st with
    | .error e => .error e
    | .ok st1 =>
      match storeDataQueue sfail { qtype := "upsert", data := dm, timestamp := now } st1 with
      | .error e => .error e
      | .ok st2 => .ok (st2, dm)

/-- Variant 2 / part_002 `getPendingSyncCount`: `count()` on the
`syncQueue` store. -/
def getPendingSyncCount2 (st : Store2) : Nat := st.syncQueue.length

/-- Variant 2 `syncWithServer` (`OfflineSync.js`).  After the offline
guard it evaluates `this.getData(this.stores.syncQueue)`, but no
`getData` method is defined anywhere in the repository, so every online
call throws a TypeError before reading the queue or attempting any
remote upsert, and the outer catch logs and rethrows; its for-loop
(`OfflineSync.js` lines 348-361) is unreachable.  Offline it returns
`undefined`.  Components: the resulting store state, the trace of
attempted remote upserts (always empty), and the JS outcome — `.ok`
with the (absent) return value, or the thrown error. -/
def syncWithServer2 (online : Bool) (st : Store2) :
    Store2 × List Defect2 × Except JsError (Option SyncResult) :=
  if !online then (st, [], .ok none)
  else (st, [], .error .typeError)

/-! ### part_002 variant (`src/unnamed/part_002`) -/

/-- part_002 `saveDefect`: always `put` the stamped record into
`defects`; offline additionally `add` a queue entry (IndexedDB `add`
throws on a duplicate key, aborting the transaction); online upsert to
the server. -/
def saveDefect3 (now : Nat) (online serverError : Bool) (d : Defect2)
    (st : Store2) : Except JsError (Store2 × Defect2) :=
  let dm : Defect2 :=
    { d with
      lastModified := now,
      syncStatus := some (if online then "synced" else "pending") }
  let st1 : Store2 := { st with defects := putKeyed (fun x => x.id) dm st.defects }
  if !online then
    if st1.syncQueue.any (fun q => q.timestamp == now) then .error .storage
    else .ok ({ st1 with syncQueue := st1.syncQueue ++ [{ qtype := "upsert", data := dm, timestamp := now }] }, dm)
  else
    if serverError then .error .server
    else .ok (st1, dm)

/-- The drain loop of part_002 `syncWithServer`: upsert each queue
item's `data`; on success delete the queue entry by `timestamp`, then
fetch the defect by `item.data.id` and, if present, put it back with
`_syncStatus = 'synced'`; a failure is caught and the loop continues.
The second component traces the attempted upserts. -/
def drain3 (srv : Defect2 → Bool) : List QItem → Store2 → Store2 × List Defect2
  | [], st => (st, [])
  | item :: rest, st =>
    if srv item.data then
      let st1 : Store2 :=
        { st with syncQueue := deleteKeyed (fun q => q.timestamp) item.timestamp st.syncQueue }
      let st2 : Store2 :=
        match findKeyed (fun x => x.id) item.data.id st1.defects with
        | some d0 =>
          { st1 with defects := putKeyed (fun x => x.id) { d0 with syncStatus := some "synced" } st1.defects }
        | none => st1
      let r := drain3 srv rest st2
      (r.1, item.data :: r.2)
    else
      let r := drain3 srv rest st
      (r.1, item.data :: r.2)

/-- part_002 `syncWithServer`: offline guard, then drain the `getAll`
snapshot of the queue.  Like variant 2 it returns no value. -/
def syncWithServer3 (online : Bool) (srv : Defect2 → Bool) (st : Store2) :
    Store2 × List Defect2 × Option SyncResult :=
  if !online then (st, [], none)
  else
    let r := drain3 srv st.syncQueue st
    (r.1, r.2, none)

/-- The spec invariant "`syncStatus == pending` iff a QueueEntry with
the same identity exists", as a decidable check on a variant-2 state. -/
def pendingIffQueuedB (st : Store2) : Bool :=
  st.defects.all (fun d =>
    (d.syncStatus == some "pending") == st.syncQueue.any (fun q => q.data.id == d.id))

/-- The empty variant-2 / part_002 state. -/
def empty2 : Store2 := { defects := [], syncQueue := [] }

/-! ### Service worker (`public/service-worker.js`, v2 worker)

An HTTP response is embedded as its `ok` flag, its optional `cached-at`
header (the captured-at marker the spec speaks of, `none` when the
header is absent) and an opaque body.  A cache partition is an
association list from request key to stored response; the Cache Storage
is an association list from partition name to partition, searched in
order by `caches.match`. -/

/-- An HTTP response: `ok` status flag, the optional `cached-at`
header, and an opaque body. -/
structure Response where
  ok : Bool
  cachedAt : Option Nat
  body : Nat
deriving DecidableEq

/-- A cache partition: request key to stored response. -/
abbrev Cache := List (String × Response)

/-- The Cache Storage: partition name to partition. -/
abbrev CacheStorage := List (String × Cache)

/-- `APP_CACHE = 'app-cache-v2'`. -/
def APP_CACHE : String := "app-cache-v2"

/-- `API_CACHE = 'api-cache-v2'`. -/
def API_CACHE : String := "api-cache-v2"

/-- `STATIC_ASSETS` precached at install (note: no `/offline.html`). -/
def STATIC_ASSETS : List String :=
  ["/", "/index.html", "/static/css/main.css", "/static/js/main.js",
   "/favicon.ico", "/manifest.json"]

/-- `API_ENDPOINTS` whose presence in the path classifies a request as
an API request. -/
def API_ENDPOINTS : List String :=
  ["/rest/v1/defects", "/rest/v1/user_vessels"]

/-- Whether `sub` starts `hay` (character-level helper for
`String.includes`). -/
def leadsWith : List Char → List Char → Bool
  | [], _ => true
  | _ :: _, [] => false
  | a :: as, b :: bs => a == b && leadsWith as bs

/-- Whether `sub` occurs anywhere in the character list. -/
def containsSub (sub : List Char) : List Char → Bool
  | [] => sub.isEmpty
  | c :: rest => leadsWith sub (c :: rest) || containsSub sub rest

/-- JavaScript `url.includes(endpoint)`. -/
def strIncludes (s pat : String) : Bool := containsSub pat.data s.data

/-- `isApiRequest`: some API endpoint occurs in the path. -/
def isApiRequest (path : String) : Bool :=
  API_ENDPOINTS.any (fun e => strIncludes path e)

/-- `caches.open(name)` followed by `cache.put(req, r)`: put into the
named partition (keyed by the request) if it exists, else create it at
the end.  Partition names are unique in the Cache Storage, so updating
the first match is exact. -/
def cachePutIn (name req : String) (r : Response) : CacheStorage → CacheStorage
  | [] => [(name, [(req, r)])]
  | c :: cs =>
    if c.1 = name then (c.1, putKeyed (fun e => e.1) (req, r) c.2) :: cs
    else c :: cachePutIn name req r cs

/-- `caches.open(name)` then `cache.match(req)`: look up one partition. -/
def cacheLookup (name : String) (cs : CacheStorage) (req : String) : Option Response :=
  match findKeyed (fun c => c.1) name cs with
  | some c => (findKeyed (fun e => e.1) req c.2).map (fun e => e.2)
  | none => none

/-- `caches.match(req)`: first hit across all partitions in order. -/
def cachesMatch (cs : CacheStorage) (req : String) : Option Response :=
  match cs with
  | [] => none
  | c :: rest =>
    match findKeyed (fun e => e.1) req c.2 with
    | some e => some e.2
    | none => cachesMatch rest req

/-- `caches.open(name)` alone: create the (empty) partition if absent. -/
def ensureCache (name : String) : CacheStorage → CacheStorage
  | [] => [(name, [])]
  | c :: cs => if c.1 = name then c :: cs else c :: ensureCache name cs

/-- Open `name` and delete every request in it (the activate handler
does this to the API cache). -/
def clearCacheEntries (name : String) : CacheStorage → CacheStorage
  | [] => [(name, [])]
  | c :: cs => if c.1 = name then (c.1, ([] : Cache)) :: cs else c :: clearCacheEntries name cs

/-- The install handler: `cache.addAll(STATIC_ASSETS)` into `APP_CACHE`
(fetching each asset through `fetchAsset`) and `caches.open(API_CACHE)`. -/
def installHandler (fetchAsset : String → Response) (cs : CacheStorage) : CacheStorage :=
  ensureCache API_CACHE
    (STATIC_ASSETS.foldl (fun acc a => cachePutIn APP_CACHE a (fetchAsset a) acc) cs)

/-- The activate handler: delete every partition whose name is not in
`[APP_CACHE, API_CACHE]`, and clear all entries of the API cache. -/
def activateHandler (cs : CacheStorage) : CacheStorage :=
  let kept := cs.filter (fun c => decide (c.1 = APP_CACHE) || decide (c.1 = API_CACHE))
  clearCacheEntries API_CACHE kept

/-- The partition names present in a Cache Storage. -/
def cacheNames (cs : CacheStorage) : List String := cs.map (fun c => c.1)

/-- The API branch of the fetch handler (network-first).  `network` is
the outcome of `fetch(event.request)`: `some r` when the promise
fulfils with response `r` (the stored copy is `response.clone()`,
unmodified — no header is added), `none` when it rejects.  The
response component is `none` exactly when the handler rethrows the
network error. -/
def handleApi (network : Option Response) (req : String) (cs : CacheStorage) :
    CacheStorage × Option Response :=
  match network with
  | some resp => (cachePutIn API_CACHE req resp cs, some resp)
  | none => (cs, cachesMatch cs req)

/-- The static-asset branch (cache-first with background refresh).  On
a hit the cached copy is returned and a background refetch overwrites
the entry whenever the fetch fulfils; on a miss the network response is
returned, cached only when `ok`; if the miss's fetch rejects, the
handler falls back to whatever is cached under `/offline.html`. -/
def handleStatic (network : Option Response) (req : String) (cs : CacheStorage) :
    CacheStorage × Option Response :=
  match cachesMatch cs req with
  | some cached =>
    match network with
    | some r => (cachePutIn APP_CACHE req r cs, some cached)
    | none => (cs, some cached)
  | none =>
    match network with
    | some r => (if r.ok then cachePutIn APP_CACHE req r cs else cs, some r)
    | none => (cs, cachesMatch cs "/offline.html")

/-- The fetch handler for a GET request: dispatch on `isApiRequest`. -/
def fetchHandler (network : Option Response) (req : String) (cs : CacheStorage) :
    CacheStorage × Option Response :=
  if isApiRequest req then handleApi network req cs
  else handleStatic network req cs

/-- The one-hour maximum age of API-cache entries (3600000 ms). -/
def MAX_API_AGE : Nat := 3600000

/-- Whether one TTL-sweep pass keeps an entry: deleted exactly when it
carries a `cached-at` header older than `MAX_API_AGE`. -/
def keepEntry (now : Nat) (e : String × Response) : Bool :=
  match e.2.cachedAt with
  | some t => if now - t > MAX_API_AGE then false else true
  | none => true

/-- One pass of the periodic cleanup over the API cache partition. -/
def cleanupApiCache (now : Nat) (c : Cache) : Cache :=
  c.filter (keepEntry now)

/-! ### Helper lemmas on the keyed-store primitives -/

theorem putKeyed_length {α κ : Type} [DecidableEq κ] (key : α → κ) (v : α)
    (xs : List α) :
    (putKeyed key v xs).length
      = if xs.any (fun x => key x == key v) then xs.length else xs.length + 1 := by
  induction xs with
  | nil => simp [putKeyed]
  | cons x xs ih =>
    by_cases h : key x = key v
    · simp [putKeyed, h]
    · simp [putKeyed, h, ih]
      split <;> rfl

theorem findKeyed_put {α κ : Type} [DecidableEq κ] (key : α → κ) (v : α)
    (xs : List α) :
    findKeyed key (key v) (putKeyed key v xs) = some v := by
  induction xs with
  | nil => simp [putKeyed, findKeyed]
  | cons x xs ih =>
    by_cases h : key x = key v
    · simp [putKeyed, h, findKeyed]
    · simp [putKeyed, h, findKeyed, ih]

theorem findKeyed_some {α κ : Type} [DecidableEq κ] (key : α → κ) (k : κ)
    (xs : List α) (v : α) (h : findKeyed key k xs = some v) : key v = k := by
  induction xs with
  | nil => simp [findKeyed] at h
  | cons x xs ih =>
    by_cases hx : key x = k
    · simp [findKeyed, hx] at h
      rw [← h]; exact hx
    · simp [findKeyed, hx] at h
      exact ih h

theorem deleteKeyed_mem {α κ : Type} [DecidableEq κ] (key : α → κ) (k : κ)
    (xs : List α) (x : α) (h : x ∈ deleteKeyed key k xs) : key x ≠ k := by
  induction xs with
  | nil => simp [deleteKeyed] at h
  | cons y ys ih =>
    by_cases hy : key y = k
    · simp [deleteKeyed, hy] at h
      exact ih h
    · simp [deleteKeyed, hy] at h
      rcases h with h | h
      · rw [h]; exact hy
      · exact ih h

/-! ### Concrete fixtures and claim theorems -/

/-- The state after an offline variant-2 save that hits no storage
error; such a save always returns `.ok`, so the error arm is dead. -/
def offlineSave2 (now : Nat) (d : Defect2) (st : Store2) : Store2 :=
  match saveDefect2 now false false false d d st with
  | .ok p => p.1
  | .error _ => st

/-- A first offline edit of record `d1`. -/
def d1A : Defect2 := { id := "d1", payload := 10, lastModified := 0, syncStatus := none }

/-- A second offline edit of the same record `d1`. -/
def d1B : Defect2 := { id := "d1", payload := 20, lastModified := 0, syncStatus := none }

/-- C1 (counterexample): two offline saves of the *same* record
identity `d1` at timestamps 1 and 2 leave **two** entries in the sync
queue (both for `d1`), and `getPendingSyncCount` reports 2 — the second
edit appended a second queue entry instead of replacing the first, so
the pending count did not increase by exactly one per distinct record. -/
theorem queue_dupPerRecord_cex :
    getPendingSyncCount2 (offlineSave2 2 d1B (offlineSave2 1 d1A empty2)) = 2 ∧
    ((offlineSave2 2 d1B (offlineSave2 1 d1A empty2)).syncQueue.all
        (fun q => q.data.id == "d1")) = true := by
  decide

/-- C1 (amended): the sync queue is keyed by save *timestamp*, not by
record identity: an offline save enqueues an entry keyed by its
timestamp, so the pending count grows by exactly one whenever the
timestamp is fresh — even for a record already queued — and stays
unchanged (entry replaced) only when the timestamp collides with an
existing queue key. -/
theorem queue_keyedByTimestamp (now : Nat) (se : Bool) (sr d : Defect2)
    (st : Store2) :
    (saveDefect2 now false false se sr d st).toOption.map
        (fun p => getPendingSyncCount2 p.1)
      = some (if st.syncQueue.any (fun q => q.timestamp == now)
              then getPendingSyncCount2 st
              else getPendingSyncCount2 st + 1) := by
  simp only [saveDefect2, storeDataDefects, storeDataQueue, if_neg, Bool.false_eq_true,
    ite_false, Except.toOption, getPendingSyncCount2, Option.map]
  rw [putKeyed_length]

/-- C3 (counterexample): `syncWithServer` invoked online with an empty
queue does not return `{ succeededCount := 0, failedCount := 0 }` — the
JavaScript function returns no value at all (`undefined`). -/
theorem syncNow_returnsNoCounts_cex :
    ¬ ((syncWithServer3 true (fun _ => true) empty2).2.2
        = some { succeededCount := 0, failedCount := 0 }) := by
  decide

/-- C3 (amended): with an empty queue, part_002's `syncWithServer`
performs zero remote upserts (empty trace), leaves the stores
unchanged, and yields no result value, and a second invocation on the
unchanged state behaves identically; the OfflineSync.js variant-2
`syncWithServer` instead throws a TypeError at its undefined
`this.getData` on every online call — also performing zero remote
upserts and leaving the stores unchanged.  Neither returns a
`{ succeededCount, failedCount }` object. -/
theorem syncNow_emptyQueue_noop (srva srvb : Defect2 → Bool)
    (defs : List Defect2) (st : Store2) :
    syncWithServer3 true srva { defects := defs, syncQueue := [] }
        = ({ defects := defs, syncQueue := [] }, [], none) ∧
    syncWithServer3 true srvb { defects := defs, syncQueue := [] }
        = ({ defects := defs, syncQueue := [] }, [], none) ∧
    syncWithServer2 true st = (st, [], .error .typeError) := by
  exact ⟨rfl, rfl, rfl⟩

/-- The state after an offline part_002 save (total wrapper; the error
arm is dead whenever the timestamp is fresh). -/
def offlineSave3 (now : Nat) (d : Defect2) (st : Store2) : Store2 :=
  match saveDefect3 now false false d st with
  | .ok p => p.1
  | .error _ => st

/-- The state after an online part_002 save with a succeeding server. -/
def onlineSave3 (now : Nat) (d : Defect2) (st : Store2) : Store2 :=
  match saveDefect3 now true false d st with
  | .ok p => p.1
  | .error _ => st

/-- C2 (counterexample): the pending-iff-queued invariant does not
hold in every reachable state.  Save `d1` offline (record pending,
queue entry added); the invariant holds.  Then save `d1` again while
online: `saveDefect` stores it as `'synced'` and upserts to the server
but never removes the stale queue entry, so a queue entry exists for a
record whose status is not `'pending'`. -/
theorem pendingIffQueued_cex :
    pendingIffQueuedB (offlineSave3 1 d1A empty2) = true ∧
    pendingIffQueuedB (onlineSave3 2 d1A (offlineSave3 1 d1A empty2)) = false := by
  decide

/-- C2 (amended): the pending-iff-queued invariant can be broken by an
online re-save of a queued record, but the drain step itself is
coherent: when part_002's drain successfully upserts a queued item and
the defects store holds a record with the item's id, the same step
removes the queue entry (no entry with its timestamp survives) and
rewrites the stored record with `syncStatus = 'synced'`. -/
theorem drain_success_marksSynced (srv : Defect2 → Bool) (item : QItem)
    (st : Store2) (d0 : Defect2)
    (hs : srv item.data = true)
    (hf : findKeyed (fun x => x.id) item.data.id st.defects = some d0) :
    findKeyed (fun x => x.id) item.data.id (drain3 srv [item] st).1.defects
        = some { d0 with syncStatus := some "synced" } ∧
    ∀ q ∈ (drain3 srv [item] st).1.syncQueue, q.timestamp ≠ item.timestamp := by
  have hid : d0.id = item.data.id := findKeyed_some _ _ _ _ hf
  have h1 : drain3 srv [item] st
      = ({ defects := putKeyed (fun x => x.id)
              { d0 with syncStatus := some "synced" } st.defects,
           syncQueue := deleteKeyed (fun q => q.timestamp) item.timestamp
              st.syncQueue },
         [item.data]) := by
    simp [drain3, hs, hf]
  rw [h1]
  constructor
  · have h2 := findKeyed_put (fun x : Defect2 => x.id)
      { d0 with syncStatus := some "synced" } st.defects
    simpa [hid] using h2
  · intro q hq
    exact deleteKeyed_mem _ _ _ _ hq

/-- A pending record together with its queue entry, for the C2 witness. -/
def dPend : Defect2 :=
  { id := "d1", payload := 10, lastModified := 1, syncStatus := some "pending" }

/-- The queue entry for `dPend`. -/
def itemC2 : QItem := { qtype := "upsert", data := dPend, timestamp := 5 }

/-- The C2 witness state: `dPend` stored and queued. -/
def stC2 : Store2 := { defects := [dPend], syncQueue := [itemC2] }

/-- Witness for `drain_success_marksSynced` at a concrete state. -/
theorem drain_success_marksSynced_witness :
    ((fun _ => true : Defect2 → Bool) itemC2.data = true ∧
     findKeyed (fun x => x.id) itemC2.data.id stC2.defects = some dPend) ∧
    (findKeyed (fun x => x.id) itemC2.data.id
        (drain3 (fun _ => true) [itemC2] stC2).1.defects
        = some { dPend with syncStatus := some "synced" } ∧
     ∀ q ∈ (drain3 (fun _ => true) [itemC2] stC2).1.syncQueue,
        q.timestamp ≠ itemC2.timestamp) :=
  ⟨⟨rfl, by decide⟩, drain_success_marksSynced _ _ _ _ rfl (by decide)⟩

theorem beq_comm_nat (a b : Nat) : (a == b) = (b == a) := by
  by_cases h : a = b
  · subst h; rfl
  · have h2 : ¬ b = a := fun hh => h hh.symm
    rw [beq_eq_false_iff_ne.mpr h, beq_eq_false_iff_ne.mpr h2]

theorem deleteKeyed_eq_filter {α κ : Type} [DecidableEq κ] (key : α → κ) (k : κ)
    (xs : List α) : deleteKeyed key k xs = xs.filter (fun x => !(key x == k)) := by
  induction xs with
  | nil => rfl
  | cons x xs ih =>
    by_cases h : key x = k <;> simp [deleteKeyed, h, ih]

theorem drain3_trace (srv : Defect2 → Bool) (queue : List QItem) (st : Store2) :
    (drain3 srv queue st).2 = queue.map (fun q => q.data) := by
  induction queue generalizing st with
  | nil => rfl
  | cons item rest ih =>
    by_cases hs : srv item.data <;> simp [drain3, hs, ih]

theorem drain3_queue (srv : Defect2 → Bool) (queue : List QItem) (st : Store2) :
    (drain3 srv queue st).1.syncQueue
      = st.syncQueue.filter
          (fun q => !(queue.any (fun i => srv i.data && i.timestamp == q.timestamp))) := by
  induction queue generalizing st with
  | nil => simp [drain3]
  | cons item rest ih =>
    by_cases hs : srv item.data
    · simp only [drain3, hs, if_true]
      cases hfk : findKeyed (fun x => x.id) item.data.id st.defects with
      | some d0 =>
        simp only [hfk]
        rw [ih]
        simp only [deleteKeyed_eq_filter, List.filter_filter]
        apply List.filter_congr
        intro q _
        simp only [List.any_cons, hs, Bool.true_and, Bool.not_or]
        rw [beq_comm_nat q.timestamp item.timestamp, Bool.and_comm]
      | none =>
        simp only [hfk]
        rw [ih]
        simp only [deleteKeyed_eq_filter, List.filter_filter]
        apply List.filter_congr
        intro q _
        simp only [List.any_cons, hs, Bool.true_and, Bool.not_or]
        rw [beq_comm_nat q.timestamp item.timestamp, Bool.and_comm]
    · have hs' : srv item.data = false := by simpa using hs
      simp only [drain3, hs', Bool.false_eq_true, if_false]
      rw [ih]
      apply List.filter_congr
      intro q _
      simp [hs']

/-- C4: part_002's drain cycle attempts one remote upsert per queue
entry, in queue (= enqueue) order, independently of the other entries'
outcomes: the upsert trace is exactly the queue's payloads in order,
every entry whose upsert succeeded is removed from the queue, and every
entry whose upsert failed remains queued for the next cycle.  The
OfflineSync.js variant-2 `syncWithServer`, by contrast, throws a
TypeError at its undefined `this.getData` before attempting any upsert,
so its drain loop is unreachable and nothing is attempted or dequeued
(the code-bug half of this verdict).  The `Nodup` hypothesis records
IndexedDB's key uniqueness for the `timestamp`-keyed queue. -/
theorem drain_perItem_isolation (srv : Defect2 → Bool) (st st2 : Store2)
    (hnd : (st.syncQueue.map (fun q => q.timestamp)).Nodup) :
    (syncWithServer3 true srv st).2.1 = st.syncQueue.map (fun q => q.data) ∧
    (syncWithServer3 true srv st).1.syncQueue
        = st.syncQueue.filter (fun q => !(srv q.data)) ∧
    syncWithServer2 true st2 = (st2, [], .error .typeError) := by
  have hinj := List.inj_on_of_nodup_map hnd
  have hpred : ∀ q ∈ st.syncQueue,
      (!(st.syncQueue.any (fun i => srv i.data && i.timestamp == q.timestamp)))
        = !(srv q.data) := by
    intro q hq
    congr 1
    by_cases hsq : srv q.data
    · rw [hsq]
      exact List.any_eq_true.mpr ⟨q, hq, by simp [hsq]⟩
    · have hsq' : srv q.data = false := by simpa using hsq
      rw [hsq']
      rw [List.any_eq_false]
      intro i hi
      intro hcon
      rcases Bool.and_eq_true_iff.mp hcon with ⟨hsi, hts⟩
      have : i = q := hinj hi hq (by simpa using hts)
      rw [this] at hsi
      exact hsq hsi
  refine ⟨?_, ?_, rfl⟩
  · simpa [syncWithServer3] using drain3_trace srv st.syncQueue st
  · have h := drain3_queue srv st.syncQueue st
    simp only [syncWithServer3, Bool.not_true, Bool.false_eq_true, if_false]
    rw [h]
    exact List.filter_congr hpred

/-- A queued record whose upsert will fail in the C4 witness. -/
def dA4 : Defect2 := { id := "a", payload := 0, lastModified := 0, syncStatus := some "pending" }

/-- A queued record whose upsert will succeed in the C4 witness. -/
def dB4 : Defect2 := { id := "b", payload := 0, lastModified := 0, syncStatus := some "pending" }

/-- The C4 witness state: two queued entries, enqueued at 1 then 2. -/
def stC4 : Store2 :=
  { defects := [],
    syncQueue := [{ qtype := "upsert", data := dA4, timestamp := 1 },
                  { qtype := "upsert", data := dB4, timestamp := 2 }] }

/-- Witness for `drain_perItem_isolation`: in part_002, with the first
upsert failing and the second succeeding, both entries are attempted in
order and only the failed one remains queued; the variant-2 call at the
same state throws before attempting anything. -/
theorem drain_perItem_isolation_witness :
    ((stC4.syncQueue.map (fun q => q.timestamp)).Nodup) ∧
    ((syncWithServer3 true (fun d => d.id == "b") stC4).2.1
        = stC4.syncQueue.map (fun q => q.data) ∧
     (syncWithServer3 true (fun d => d.id == "b") stC4).1.syncQueue
        = stC4.syncQueue.filter (fun q => !((fun d : Defect2 => d.id == "b") q.data)) ∧
     syncWithServer2 true stC4 = (stC4, [], .error .typeError)) :=
  ⟨by decide, drain_perItem_isolation (fun d => d.id == "b") stC4 stC4 (by decide)⟩

theorem cacheLookup_cachePutIn (name req : String) (r : Response)
    (cs : CacheStorage) :
    cacheLookup name (cachePutIn name req r cs) req = some r := by
  induction cs with
  | nil => simp [cachePutIn, cacheLookup, findKeyed]
  | cons c cs ih =>
    by_cases hc : c.1 = name
    · simp only [cachePutIn, hc, if_true, cacheLookup, findKeyed, ite_true]
      have h2 := findKeyed_put (fun e : String × Response => e.1) (req, r) c.2
      simp [h2]
    · simpa [cachePutIn, hc, cacheLookup, findKeyed] using ih

/-- C5 (counterexample): after the API branch handles a successful
fetch of `/rest/v1/defects`, the copy stored in the API cache carries
**no** captured-at timestamp — `cache.put` stores the plain response
clone and the handler never attaches a `cached-at` header (which is
also why the TTL sweep, which looks for that header, finds nothing to
evict). -/
theorem apiCache_untagged_cex :
    (cacheLookup API_CACHE
        (fetchHandler (some { ok := true, cachedAt := none, body := 42 })
          "/rest/v1/defects" []).1
        "/rest/v1/defects").map (fun q => q.cachedAt)
      = some none := by
  decide

/-- C5 (amended): API-classified GET requests are network-first: on a
fulfilled fetch the handler stores an exact, untagged copy of the
response in the API cache partition (the stored entry is the response
itself, `cached-at` header and all — no captured-at timestamp is
added) and returns the live response; on a rejected fetch it returns
the cached response for the exact request key if any cache holds one,
and otherwise propagates the network failure (`none`). -/
theorem apiRequest_networkFirst (r : Response) (req : String)
    (cs : CacheStorage) (h : isApiRequest req = true) :
    fetchHandler (some r) req cs = (cachePutIn API_CACHE req r cs, some r) ∧
    cacheLookup API_CACHE (fetchHandler (some r) req cs).1 req = some r ∧
    fetchHandler none req cs = (cs, cachesMatch cs req) := by
  refine ⟨?_, ?_, ?_⟩ <;>
    simp [fetchHandler, h, handleApi, cacheLookup_cachePutIn]

/-- Witness for `apiRequest_networkFirst` at `/rest/v1/defects`. -/
theorem apiRequest_networkFirst_witness :
    (isApiRequest "/rest/v1/defects" = true) ∧
    (fetchHandler (some { ok := true, cachedAt := none, body := 7 })
        "/rest/v1/defects" []
      = (cachePutIn API_CACHE "/rest/v1/defects"
          { ok := true, cachedAt := none, body := 7 } [],
         some { ok := true, cachedAt := none, body := 7 }) ∧
     cacheLookup API_CACHE
        (fetchHandler (some { ok := true, cachedAt := none, body := 7 })
          "/rest/v1/defects" []).1 "/rest/v1/defects"
        = some { ok := true, cachedAt := none, body := 7 } ∧
     fetchHandler none "/rest/v1/defects" []
        = ([], cachesMatch [] "/rest/v1/defects")) :=
  ⟨by decide,
   apiRequest_networkFirst { ok := true, cachedAt := none, body := 7 }
     "/rest/v1/defects" [] (by decide)⟩

/-- C6: one TTL sweep pass over the API cache removes exactly the
entries whose captured-at stamp is older than the configured one-hour
maximum age: an entry with `cached-at = t` and `now - t > MAX_API_AGE`
is absent afterwards, and an entry with `now - t ≤ MAX_API_AGE`
remains present. -/
theorem ttlSweep_evictsExpired (now t : Nat) (key : String) (r : Response)
    (c : Cache) (hmem : (key, r) ∈ c) (hat : r.cachedAt = some t) :
    (now - t > MAX_API_AGE → (key, r) ∉ cleanupApiCache now c) ∧
    (now - t ≤ MAX_API_AGE → (key, r) ∈ cleanupApiCache now c) := by
  constructor
  · intro hgt hin
    rcases List.mem_filter.mp hin with ⟨-, hk⟩
    rw [keepEntry] at hk
    simp only [hat] at hk
    rw [if_pos hgt] at hk
    exact Bool.false_ne_true hk
  · intro hle
    refine List.mem_filter.mpr ⟨hmem, ?_⟩
    rw [keepEntry]
    simp only [hat]
    rw [if_neg (by omega)]

/-- An expired API-cache entry for the C6 witness. -/
def rOld : Response := { ok := true, cachedAt := some 0, body := 1 }

/-- A fresh API-cache entry for the C6 witness. -/
def rNew : Response := { ok := true, cachedAt := some 4000000, body := 2 }

/-- The C6 witness cache: one expired and one fresh entry. -/
def cC6 : Cache := [("/rest/v1/defects?a", rOld), ("/rest/v1/defects?b", rNew)]

/-- Witness for `ttlSweep_evictsExpired`: at `now = 4000001` the entry
captured at 0 is evicted while the entry captured at 4000000 stays. -/
theorem ttlSweep_evictsExpired_witness :
    (("/rest/v1/defects?a", rOld) ∈ cC6 ∧ rOld.cachedAt = some 0) ∧
    ((4000001 - 0 > MAX_API_AGE →
        ("/rest/v1/defects?a", rOld) ∉ cleanupApiCache 4000001 cC6) ∧
     (4000001 - 0 ≤ MAX_API_AGE →
        ("/rest/v1/defects?a", rOld) ∈ cleanupApiCache 4000001 cC6)) :=
  ⟨⟨by decide, by decide⟩,
   ttlSweep_evictsExpired 4000001 0 "/rest/v1/defects?a" rOld cC6
     (by decide) (by decide)⟩

theorem cacheNames_clearCacheEntries (n : String) (cs : CacheStorage) :
    cacheNames (clearCacheEntries n cs) = cacheNames (ensureCache n cs) := by
  induction cs with
  | nil => rfl
  | cons c cs ih =>
    by_cases hc : c.1 = n
    · simp [clearCacheEntries, ensureCache, hc, cacheNames]
    · simp only [clearCacheEntries, ensureCache, hc, if_false, cacheNames,
        List.map_cons, List.cons.injEq, true_and]
      exact ih

theorem mem_cacheNames_ensure (n x : String) (cs : CacheStorage)
    (h : x ∈ cacheNames (ensureCache n cs)) : x ∈ cacheNames cs ∨ x = n := by
  induction cs with
  | nil =>
    simp [ensureCache, cacheNames] at h
    right; exact h
  | cons c cs ih =>
    by_cases hc : c.1 = n
    · simp only [ensureCache, hc, if_true] at h
      left; exact h
    · simp only [ensureCache, hc, if_false, cacheNames, List.map_cons,
        List.mem_cons] at h
      rcases h with h | h
      · left; simp [cacheNames, h]
      · rcases ih h with h2 | h2
        · left; simp [cacheNames] at h2 ⊢; right; exact h2
        · right; exact h2

/-- C7: the activate handler deletes every cache partition whose name
is not in the current version's partition set `{APP_CACHE, API_CACHE}`;
in particular, activating over `{app-cache-v1, api-cache-v1,
app-cache-v2}` leaves exactly the v2-tagged partitions (`app-cache-v2`,
plus the freshly opened and emptied `api-cache-v2`) and deletes both
v1-tagged partitions. -/
theorem activate_deletesOldVersions (cs : CacheStorage) (name : String)
    (h2 : name ≠ APP_CACHE) (h3 : name ≠ API_CACHE) :
    name ∉ cacheNames (activateHandler cs) ∧
    cacheNames (activateHandler
        [("app-cache-v1", []), ("api-cache-v1", []), ("app-cache-v2", [])])
      = [APP_CACHE, API_CACHE] := by
  constructor
  · intro hmem
    rw [activateHandler, cacheNames_clearCacheEntries] at hmem
    rcases mem_cacheNames_ensure _ _ _ hmem with hin | rfl
    · rcases List.mem_map.mp hin with ⟨c, hc, rfl⟩
      have hp := (List.mem_filter.mp hc).2
      simp only [Bool.or_eq_true, decide_eq_true_eq] at hp
      rcases hp with h | h
      · exact h2 h
      · exact h3 h
    · exact h3 rfl
  · decide

/-- Witness for `activate_deletesOldVersions` at `app-cache-v1`. -/
theorem activate_deletesOldVersions_witness :
    ("app-cache-v1" ≠ APP_CACHE ∧ "app-cache-v1" ≠ API_CACHE) ∧
    ("app-cache-v1" ∉ cacheNames (activateHandler
        [("app-cache-v1", []), ("api-cache-v1", []), ("app-cache-v2", [])]) ∧
     cacheNames (activateHandler
        [("app-cache-v1", []), ("api-cache-v1", []), ("app-cache-v2", [])])
       = [APP_CACHE, API_CACHE]) :=
  ⟨⟨by decide, by decide⟩,
   activate_deletesOldVersions
     [("app-cache-v1", []), ("api-cache-v1", []), ("app-cache-v2", [])]
     "app-cache-v1" (by decide) (by decide)⟩

/-- C9 (counterexample): with the caches exactly as the install
handler precaches them (the six static assets; `/offline.html` is not
among them), a static GET for an uncached path whose network fetch
fails returns **no** response at all — the designated fallback
`caches.match('/offline.html')` misses, so the caller gets nothing
rather than a fallback response. -/
theorem staticFallback_missing_cex :
    (fetchHandler none "/dashboard"
        (installHandler (fun _ => { ok := true, cachedAt := none, body := 0 })
          [])).2 = none := by
  decide

/-- C9 (amended): static-asset GETs are cache-first: on a hit the
cached copy is returned while a fulfilled background refetch overwrites
the cache entry; on a miss with a fulfilled fetch the response is
returned and cached when `ok`; and when both the cache misses and the
fetch rejects, the handler returns whatever is cached under
`/offline.html` — which, since `/offline.html` is never precached, can
be no response at all. -/
theorem staticRequest_cacheFirst (r : Response) (req : String)
    (cs : CacheStorage) (hs : isApiRequest req = false) :
    (∀ cached, cachesMatch cs req = some cached →
        fetchHandler (some r) req cs = (cachePutIn APP_CACHE req r cs, some cached) ∧
        fetchHandler none req cs = (cs, some cached)) ∧
    (cachesMatch cs req = none →
        fetchHandler (some r) req cs
          = ((if r.ok then cachePutIn APP_CACHE req r cs else cs), some r) ∧
        fetchHandler none req cs = (cs, cachesMatch cs "/offline.html")) := by
  constructor
  · intro cached hc
    constructor <;> simp [fetchHandler, hs, handleStatic, hc]
  · intro hc
    constructor <;> simp [fetchHandler, hs, handleStatic, hc]

/-- Witness for `staticRequest_cacheFirst` at `/index.html` over the
empty cache storage. -/
theorem staticRequest_cacheFirst_witness :
    (isApiRequest "/index.html" = false) ∧
    ((∀ cached, cachesMatch [] "/index.html" = some cached →
        fetchHandler (some { ok := true, cachedAt := none, body := 9 })
            "/index.html" []
          = (cachePutIn APP_CACHE "/index.html"
              { ok := true, cachedAt := none, body := 9 } [], some cached) ∧
        fetchHandler none "/index.html" [] = ([], some cached)) ∧
     (cachesMatch [] "/index.html" = none →
        fetchHandler (some { ok := true, cachedAt := none, body := 9 })
            "/index.html" []
          = ((if ({ ok := true, cachedAt := none, body := 9 } : Response).ok
              then cachePutIn APP_CACHE "/index.html"
                { ok := true, cachedAt := none, body := 9 } []
              else []),
             some { ok := true, cachedAt := none, body := 9 }) ∧
        fetchHandler none "/index.html" []
          = ([], cachesMatch [] "/offline.html"))) :=
  ⟨by decide,
   staticRequest_cacheFirst { ok := true, cachedAt := none, body := 9 }
     "/index.html" [] (by decide)⟩

/-- C10: called while offline (`navigator.onLine` false), every
`syncWithServer` variant returns immediately (normally, before any
store access — the offline guard is each function's first statement):
no remote upsert is attempted (empty trace) and the defects store and
sync queue are both unchanged. -/
theorem syncWithServer_offline_noop (srv1 : Defect1 → Bool)
    (srv : Defect2 → Bool) (now : Nat) (st1 : Store1) (st : Store2) :
    syncWithServer1 false srv1 now st1 = (st1, []) ∧
    syncWithServer2 false st = (st, [], .ok none) ∧
    syncWithServer3 false srv st = (st, [], none) := by
  exact ⟨rfl, rfl, rfl⟩

end DefectsLog
